import Mathlib

/-
Verification of the battery state-of-charge firmware (src/battery.ino).

The repository ships two variants of the firmware concatenated in one file:
variant A (the first sketch: dead-zone filter enabled, EEPROM persistence,
200-sample current averaging, 500-sample calibration) and variant B (the
second sketch: dead-zone filter commented out, no persistence, 400-sample
current averaging, 1000-sample calibration).

Floats are modelled as rationals (ℚ); float expressions such as
1.0 / 3600.0 are read as exact rational constants.  ADC counts and sample
sums are naturals; the C integer divisions (long / int on nonnegative
values, truncating) are Nat division.  The ADC sample streams consumed by
the averaging loops are modelled as functions ℕ → ℕ giving the value of
each successive analogRead call.
-/

namespace BMS

/-- Model of the ESP32 EEPROM library as used by variant A: a single cell
at offset 0 holding one float.  The library keeps a RAM cache backed by
flash; EEPROM.put writes the cache, EEPROM.commit copies the cache to
flash, EEPROM.begin loads flash into the cache, EEPROM.get reads the
cache.  A value of none stands for absent or non-finite (NaN) contents,
as read from never-written storage. -/
structure EEPROM where
  ram : Option ℚ
  flash : Option ℚ
  deriving DecidableEq

/-- Model of EEPROM.put(0, x): write the RAM cache. -/
def EEPROM.put (e : EEPROM) (x : ℚ) : EEPROM := { e with ram := some x }

/-- Model of EEPROM.commit(): copy the RAM cache to flash. -/
def EEPROM.commit (e : EEPROM) : EEPROM := { e with flash := e.ram }

/-- Model of EEPROM.begin(4): load flash contents into the RAM cache. -/
def EEPROM.beginEeprom (e : EEPROM) : EEPROM := { e with ram := e.flash }

/-- Model of EEPROM.get(0, x): read the RAM cache. -/
def EEPROM.get (e : EEPROM) : Option ℚ := e.ram

/-- Model of a power cycle: the RAM cache is lost, flash survives. -/
def EEPROM.powerCycle (e : EEPROM) : EEPROM := { e with ram := none }

/-- Save path of variant A, loop lines 198-202: EEPROM.put(0,
batteryJuiceLeft) followed by EEPROM.commit(). -/
def EEPROM.saveBatteryLevel (e : EEPROM) (x : ℚ) : EEPROM :=
  (e.put x).commit

/-- Load path of variant A, setup lines 59-61 run after a power cycle:
EEPROM.begin(4) then EEPROM.get(0, batteryJuiceLeft). -/
def EEPROM.loadAfterPowerCycle (e : EEPROM) : Option ℚ :=
  e.powerCycle.beginEeprom.get

namespace BatteryA

/-- const float BATTERY_FULL_CAPACITY = 12.064; -/
def BATTERY_FULL_CAPACITY : ℚ := 12064 / 1000

/-- const float VOLTAGE_CORRECTION = 5.423; -/
def VOLTAGE_CORRECTION : ℚ := 5423 / 1000

/-- const float CURRENT_SENSITIVITY = 0.185; -/
def CURRENT_SENSITIVITY : ℚ := 185 / 1000

/-- const float ESP32_VOLTAGE = 3.3; -/
def ESP32_VOLTAGE : ℚ := 33 / 10

/-- define SAMPLES_TO_AVERAGE 200 -/
def SAMPLES_TO_AVERAGE : ℕ := 200

/-- const float CURRENT_NOISE_THRESHOLD = 0.05; -/
def CURRENT_NOISE_THRESHOLD : ℚ := 5 / 100

/-- Global mutable state of variant A: the calibration offset, the
running capacity, the two scheduling timestamps and the EEPROM. -/
structure State where
  noLoadVoltage : ℚ
  batteryJuiceLeft : ℚ
  timeOfLastCheck : ℕ
  timeOfLastSave : ℕ
  eeprom : EEPROM

/-- Linear ADC-count-to-volts conversion (raw / 4095.0) * ESP32_VOLTAGE
used throughout the sketch. -/
def adcToVolts (raw : ℕ) : ℚ := ((raw : ℚ) / 4095) * ESP32_VOLTAGE

/-- Loop lines 115-120: sum SAMPLES_TO_AVERAGE analogRead samples into a
long, divide by SAMPLES_TO_AVERAGE into an int (truncating integer
division), convert to volts. -/
def readAveragedCurrentVoltage (read : ℕ → ℕ) : ℚ :=
  let totalCurrentReading : ℕ := ∑ i ∈ Finset.range SAMPLES_TO_AVERAGE, read i
  let avgCurrentReading : ℕ := totalCurrentReading / SAMPLES_TO_AVERAGE
  adcToVolts avgCurrentReading

/-- Loop line 122: amps = (noLoadVoltage - currentSensorVoltage) /
CURRENT_SENSITIVITY. -/
def computeAmps (noLoad currentSensorVoltage : ℚ) : ℚ :=
  (noLoad - currentSensorVoltage) / CURRENT_SENSITIVITY

/-- Loop lines 125-127: if (abs(amps) < CURRENT_NOISE_THRESHOLD)
amps = 0.0; -/
def applyDeadZone (amps : ℚ) : ℚ :=
  if |amps| < CURRENT_NOISE_THRESHOLD then 0 else amps

/-- Charge update of a single tick, loop lines 122-147: compute amps
from the averaged sensor voltage, apply the dead-zone filter, subtract
amps * (1.0 / 3600.0) from batteryJuiceLeft, then clamp below at 0 and
above at BATTERY_FULL_CAPACITY. -/
def doTick (s : State) (read : ℕ → ℕ) : State :=
  let currentSensorVoltage := readAveragedCurrentVoltage read
  let amps := applyDeadZone (computeAmps s.noLoadVoltage currentSensorVoltage)
  let timePassedInHours : ℚ := 1 / 3600
  let ampsUsed := amps * timePassedInHours
  let j0 := s.batteryJuiceLeft - ampsUsed
  let j1 := if j0 < 0 then 0 else j0
  let j2 := if j1 > BATTERY_FULL_CAPACITY then BATTERY_FULL_CAPACITY else j1
  { s with batteryJuiceLeft := j2 }

/-- Loop line 150: stateOfChargePercent = (batteryJuiceLeft /
BATTERY_FULL_CAPACITY) * 100.0; -/
def stateOfChargePercent (s : State) : ℚ :=
  (s.batteryJuiceLeft / BATTERY_FULL_CAPACITY) * 100

/-- Sequence of ticks: fold doTick over the successive current-sample
streams. -/
def runTicks (s : State) (reads : List (ℕ → ℕ)) : State :=
  reads.foldl doTick s

/-- Calibration routine zeroOutCurrentSensor, lines 207-225: sum 500
analogRead samples, divide by 500 (truncating integer division), convert
to volts, and store the result in noLoadVoltage.  No other global is
written. -/
def zeroOutCurrentSensor (s : State) (read : ℕ → ℕ) : State :=
  let totalReading : ℕ := ∑ i ∈ Finset.range 500, read i
  let avgReading : ℕ := totalReading / 500
  { s with noLoadVoltage := adcToVolts avgReading }

/-- Startup initialisation of batteryJuiceLeft, setup lines 61-69: load
the stored float; if it is NaN (modelled none), negative, or above
BATTERY_FULL_CAPACITY, start from a full battery, otherwise keep it. -/
def initBatteryJuice (loaded : Option ℚ) : ℚ :=
  match loaded with
  | none => BATTERY_FULL_CAPACITY
  | some v =>
      if v < 0 ∨ v > BATTERY_FULL_CAPACITY then BATTERY_FULL_CAPACITY else v

/-- Events observable from outside the firmware: a calibration run, one
estimator tick, one persistence save.  Display and serial output are
reporting sinks attached to these events and are not modelled further. -/
inductive Event where
  | calibration
  | tick
  | save
  deriving DecidableEq

/-- Inputs consumed by one pass of loop(): the calibrate-button level,
the millis() clock, and the ADC sample streams used if a calibration or
a tick runs during this pass. -/
structure LoopInput where
  buttonLow : Bool
  now : ℕ
  calibRead : ℕ → ℕ
  currentRead : ℕ → ℕ

/-- One pass of variant A loop(), lines 93-204: run a calibration if the
button is held (lines 95-101); if at least 1000 ms elapsed since
timeOfLastCheck, run one tick and reset timeOfLastCheck (lines 104-194);
if at least 60000 ms elapsed since timeOfLastSave, persist
batteryJuiceLeft via EEPROM.put and EEPROM.commit (lines 198-203).
Returns the new state and the events of this pass in order. -/
def loopIter (s : State) (inp : LoopInput) : State × List Event :=
  let p1 : State × List Event :=
    match inp.buttonLow with
    | true => (zeroOutCurrentSensor s inp.calibRead, [Event.calibration])
    | false => (s, [])
  let p2 : State × List Event :=
    if 1000 ≤ inp.now - p1.1.timeOfLastCheck then
      ({ doTick p1.1 inp.currentRead with timeOfLastCheck := inp.now },
        p1.2 ++ [Event.tick])
    else p1
  if 60000 ≤ inp.now - p2.1.timeOfLastSave then
    ({ p2.1 with
        timeOfLastSave := inp.now,
        eeprom := p2.1.eeprom.saveBatteryLevel p2.1.batteryJuiceLeft },
      p2.2 ++ [Event.save])
  else p2

/-- Variant A setup(), lines 55-91: load batteryJuiceLeft from EEPROM
with the battery-full fallback, then initialise the display; if the
display fails to start, hang forever in while (true); (modelled none).
Otherwise perform the initial calibration and start the timers. -/
def setup (displayOk : Bool) (e : EEPROM) (calibRead : ℕ → ℕ)
    (startMillis : ℕ) : Option State :=
  let e1 := e.beginEeprom
  let juice := initBatteryJuice e1.get
  match displayOk with
  | false => none
  | true =>
      some (zeroOutCurrentSensor
        { noLoadVoltage := 0
          batteryJuiceLeft := juice
          timeOfLastCheck := startMillis
          timeOfLastSave := startMillis
          eeprom := e1 } calibRead)

/-- Accumulating fold step for run: thread the state and append each
pass's events. -/
def loopStep (acc : State × List Event) (inp : LoopInput) :
    State × List Event :=
  let r := loopIter acc.1 inp
  (r.1, acc.2 ++ r.2)

/-- Whole-program event trace: setup followed by the given loop passes.
When setup hangs on display failure, no event is ever produced; when it
succeeds, the initial calibration of setup line 86 is the first event. -/
def run (displayOk : Bool) (e : EEPROM) (calibRead : ℕ → ℕ)
    (startMillis : ℕ) (inputs : List LoopInput) : List Event :=
  match setup displayOk e calibRead startMillis with
  | none => []
  | some s0 => (inputs.foldl loopStep (s0, [Event.calibration])).2

end BatteryA

namespace BatteryB

/-- const float BATTERY_CAPACITY_Ah = 12.064; -/
def BATTERY_CAPACITY_Ah : ℚ := 12064 / 1000

/-- const float ACS712_SENSITIVITY = 0.185; -/
def ACS712_SENSITIVITY : ℚ := 185 / 1000

/-- const float ADC_REFERENCE_VOLTAGE = 3.3; -/
def ADC_REFERENCE_VOLTAGE : ℚ := 33 / 10

/-- define CURRENT_AVG_SAMPLES 400 -/
def CURRENT_AVG_SAMPLES : ℕ := 400

/-- Loop line 315: float deltaTime_hours = 1000.0 / 3600000.0; -/
def deltaTime_hours : ℚ := 1000 / 3600000

/-- Global mutable state of variant B: calibration offset and running
capacity.  Variant B has no persistence. -/
structure StateB where
  zeroCurrentVoltage : ℚ
  remainingCapacity_Ah : ℚ

/-- Loop lines 323-329: sum CURRENT_AVG_SAMPLES analogRead samples,
divide by CURRENT_AVG_SAMPLES (truncating integer division), convert to
volts. -/
def sensorVoltage (read : ℕ → ℕ) : ℚ :=
  let currentAdcSum : ℕ := ∑ i ∈ Finset.range CURRENT_AVG_SAMPLES, read i
  let avgCurrentAdc : ℕ := currentAdcSum / CURRENT_AVG_SAMPLES
  ((avgCurrentAdc : ℚ) / 4095) * ADC_REFERENCE_VOLTAGE

/-- Tick body of variant B, loop lines 314-348: current =
(zeroCurrentVoltage - sensor_voltage) / ACS712_SENSITIVITY; the dead
zone is commented out (lines 334-337); chargeConsumed_Ah = current *
deltaTime_hours; subtract and clamp to [0, BATTERY_CAPACITY_Ah]. -/
def tickB (s : StateB) (read : ℕ → ℕ) : StateB :=
  let current := (s.zeroCurrentVoltage - sensorVoltage read) / ACS712_SENSITIVITY
  let chargeConsumed_Ah := current * deltaTime_hours
  let r0 := s.remainingCapacity_Ah - chargeConsumed_Ah
  let r1 := if r0 < 0 then 0 else r0
  let r2 := if r1 > BATTERY_CAPACITY_Ah then BATTERY_CAPACITY_Ah else r1
  { s with remainingCapacity_Ah := r2 }

/-- Loop line 348: soc = (remainingCapacity_Ah / BATTERY_CAPACITY_Ah) *
100.0; -/
def soc (s : StateB) : ℚ :=
  (s.remainingCapacity_Ah / BATTERY_CAPACITY_Ah) * 100

/-- Calibration routine recalibrateCurrentSensor, lines 374-394: sum
1000 analogRead samples, divide by 1000 (truncating integer division),
convert to volts, and store the result in zeroCurrentVoltage.  No other
global is written. -/
def recalibrateCurrentSensor (s : StateB) (read : ℕ → ℕ) : StateB :=
  let adcSum : ℕ := ∑ i ∈ Finset.range 1000, read i
  let avgAdc : ℕ := adcSum / 1000
  { s with zeroCurrentVoltage := ((avgAdc : ℚ) / 4095) * ADC_REFERENCE_VOLTAGE }

end BatteryB

/-- Spec-side clamp written as in §4.3 step 5 of the specification:
max(0, min(fullCapacityAh, x)).  Used to compare the code's pair of
conditional assignments against the specification's formula. -/
def specClamp (cap x : ℚ) : ℚ := max 0 (min cap x)

/-- Spec-side exact arithmetic mean of the variant A current samples
converted to volts, following the specification's words for
readAveragedCurrentVoltage: the mean is taken in exact (rational)
arithmetic, with no integer truncation.  Used to compare against the
code's readAveragedCurrentVoltage. -/
def specMeanVoltage (read : ℕ → ℕ) : ℚ :=
  ((∑ i ∈ Finset.range BatteryA.SAMPLES_TO_AVERAGE, (read i : ℚ)) /
      (BatteryA.SAMPLES_TO_AVERAGE : ℚ)) / 4095 * BatteryA.ESP32_VOLTAGE

open BatteryA

/-- Helper: the code's pair of conditional clamping assignments (first
clamp below at 0, then above at cap) agrees with the specification's
max(0, min(cap, x)) whenever 0 ≤ cap. -/
lemma ifClamp_eq_specClamp (cap x : ℚ) (hc : 0 ≤ cap) :
    (if (if x < 0 then 0 else x) > cap then cap else (if x < 0 then 0 else x))
      = specClamp cap x := by
  rw [specClamp, max_def, min_def]
  split_ifs <;> linarith

/-- Helper: specClamp lands in [0, cap] whenever 0 ≤ cap. -/
lemma specClamp_bounds (cap x : ℚ) (hc : 0 ≤ cap) :
    0 ≤ specClamp cap x ∧ specClamp cap x ≤ cap :=
  ⟨le_max_left _ _, max_le hc (min_le_left _ _)⟩

/-- Helper: the capacity constant is positive. -/
lemma battery_full_capacity_pos : (0:ℚ) < BATTERY_FULL_CAPACITY := by
  norm_num [BATTERY_FULL_CAPACITY]

/-- Characterisation of the variant A tick: the new batteryJuiceLeft is
the clamp of the old value minus the dead-zone-filtered current times
1/3600 h. -/
lemma doTick_juice (s : State) (read : ℕ → ℕ) :
    (doTick s read).batteryJuiceLeft =
      specClamp BATTERY_FULL_CAPACITY
        (s.batteryJuiceLeft -
          applyDeadZone
            (computeAmps s.noLoadVoltage (readAveragedCurrentVoltage read)) *
            (1 / 3600)) :=
  ifClamp_eq_specClamp _ _ battery_full_capacity_pos.le

/-- Helper: every variant A tick leaves batteryJuiceLeft inside
[0, BATTERY_FULL_CAPACITY], regardless of the incoming value. -/
lemma doTick_bounds (s : State) (read : ℕ → ℕ) :
    0 ≤ (doTick s read).batteryJuiceLeft ∧
      (doTick s read).batteryJuiceLeft ≤ BATTERY_FULL_CAPACITY := by
  rw [doTick_juice]
  exact specClamp_bounds _ _ battery_full_capacity_pos.le

/-- Characterisation of the variant B tick. -/
lemma tickB_rem (s : BatteryB.StateB) (read : ℕ → ℕ) :
    (BatteryB.tickB s read).remainingCapacity_Ah =
      specClamp BatteryB.BATTERY_CAPACITY_Ah
        (s.remainingCapacity_Ah -
          ((s.zeroCurrentVoltage - BatteryB.sensorVoltage read) /
            BatteryB.ACS712_SENSITIVITY) * BatteryB.deltaTime_hours) :=
  ifClamp_eq_specClamp _ _ (by norm_num [BatteryB.BATTERY_CAPACITY_Ah])

/-- Concrete initial state used by the witness theorems. -/
def sampleState : State :=
  { noLoadVoltage := CURRENT_SENSITIVITY
    batteryJuiceLeft := BATTERY_FULL_CAPACITY
    timeOfLastCheck := 0
    timeOfLastSave := 0
    eeprom := { ram := none, flash := none } }

/-- Concrete all-zero ADC stream used by the witness theorems. -/
def zeroRead : ℕ → ℕ := fun _ => 0

/-- Claim C1: starting from any state with 0 ≤ batteryJuiceLeft ≤
BATTERY_FULL_CAPACITY, after any sequence of ticks the invariant
0 ≤ batteryJuiceLeft ≤ BATTERY_FULL_CAPACITY still holds, and the
derived stateOfChargePercent lies in [0, 100]. -/
theorem soc_clamp_invariant (s : State) (reads : List (ℕ → ℕ))
    (h0 : 0 ≤ s.batteryJuiceLeft)
    (h1 : s.batteryJuiceLeft ≤ BATTERY_FULL_CAPACITY) :
    0 ≤ (runTicks s reads).batteryJuiceLeft ∧
    (runTicks s reads).batteryJuiceLeft ≤ BATTERY_FULL_CAPACITY ∧
    0 ≤ stateOfChargePercent (runTicks s reads) ∧
    stateOfChargePercent (runTicks s reads) ≤ 100 := by
  have hj : 0 ≤ (runTicks s reads).batteryJuiceLeft ∧
      (runTicks s reads).batteryJuiceLeft ≤ BATTERY_FULL_CAPACITY := by
    induction reads generalizing s with
    | nil => exact ⟨h0, h1⟩
    | cons r rs ih =>
        have hb := doTick_bounds s r
        exact ih (doTick s r) hb.1 hb.2
  refine ⟨hj.1, hj.2, ?_, ?_⟩
  · unfold stateOfChargePercent
    exact mul_nonneg (div_nonneg hj.1 battery_full_capacity_pos.le) (by norm_num)
  · unfold stateOfChargePercent
    have hcap := battery_full_capacity_pos
    have hle : (runTicks s reads).batteryJuiceLeft / BATTERY_FULL_CAPACITY ≤ 1 := by
      rw [div_le_one hcap]; exact hj.2
    nlinarith [hj.1, hj.2]

/-- Witness for C1 at a concrete full-battery state and a single
all-zero tick. -/
theorem soc_clamp_invariant_witness :
    (0 ≤ sampleState.batteryJuiceLeft ∧
      sampleState.batteryJuiceLeft ≤ BATTERY_FULL_CAPACITY) ∧
    (0 ≤ (runTicks sampleState [zeroRead]).batteryJuiceLeft ∧
      (runTicks sampleState [zeroRead]).batteryJuiceLeft ≤ BATTERY_FULL_CAPACITY ∧
      0 ≤ stateOfChargePercent (runTicks sampleState [zeroRead]) ∧
      stateOfChargePercent (runTicks sampleState [zeroRead]) ≤ 100) :=
  ⟨⟨by norm_num [sampleState, BATTERY_FULL_CAPACITY],
    by norm_num [sampleState]⟩,
   soc_clamp_invariant sampleState [zeroRead]
     (by norm_num [sampleState, BATTERY_FULL_CAPACITY])
     (by norm_num [sampleState])⟩

/-- Helper: the averaged sensor voltage of the all-zero ADC stream is 0
in variant A. -/
lemma readAveragedCurrentVoltage_zeroRead :
    readAveragedCurrentVoltage zeroRead = 0 := by
  unfold readAveragedCurrentVoltage zeroRead adcToVolts
  simp

/-- Claim C2: on a tick, the code computes current = (zeroOffsetVoltage
- currentSensorVoltage) / sensorSensitivity (positive = discharging),
subtracts current * (Δt in hours) from the remaining capacity, clamps to
[0, fullCapacityAh], and reports stateOfChargePercent =
remainingCapacityAh / fullCapacityAh * 100.  Variant B (dead zone
disabled) realises the formulas verbatim; variant A agrees whenever the
computed current is not swallowed by the separately specified dead-zone
filter (claim C5). -/
theorem tick_formulas (sA : State) (readA : ℕ → ℕ)
    (sB : BatteryB.StateB) (readB : ℕ → ℕ)
    (hA : CURRENT_NOISE_THRESHOLD ≤
      |computeAmps sA.noLoadVoltage (readAveragedCurrentVoltage readA)|) :
    (doTick sA readA).batteryJuiceLeft =
      specClamp BATTERY_FULL_CAPACITY
        (sA.batteryJuiceLeft -
          ((sA.noLoadVoltage - readAveragedCurrentVoltage readA) /
            CURRENT_SENSITIVITY) * (1 / 3600)) ∧
    stateOfChargePercent (doTick sA readA) =
      (doTick sA readA).batteryJuiceLeft / BATTERY_FULL_CAPACITY * 100 ∧
    (BatteryB.tickB sB readB).remainingCapacity_Ah =
      specClamp BatteryB.BATTERY_CAPACITY_Ah
        (sB.remainingCapacity_Ah -
          ((sB.zeroCurrentVoltage - BatteryB.sensorVoltage readB) /
            BatteryB.ACS712_SENSITIVITY) * (1 / 3600)) ∧
    BatteryB.soc (BatteryB.tickB sB readB) =
      (BatteryB.tickB sB readB).remainingCapacity_Ah /
        BatteryB.BATTERY_CAPACITY_Ah * 100 := by
  refine ⟨?_, rfl, ?_, rfl⟩
  · rw [doTick_juice]
    have hdz : applyDeadZone
        (computeAmps sA.noLoadVoltage (readAveragedCurrentVoltage readA)) =
        computeAmps sA.noLoadVoltage (readAveragedCurrentVoltage readA) := by
      unfold applyDeadZone
      exact if_neg (by push_neg; exact hA)
    rw [hdz, computeAmps]
  · rw [tickB_rem]
    norm_num [BatteryB.deltaTime_hours]

/-- Witness for C2: with zero offset equal to the sensitivity constant
and all-zero samples, the computed current is exactly 1 A, which clears
the dead zone. -/
theorem tick_formulas_witness :
    CURRENT_NOISE_THRESHOLD ≤
      |computeAmps sampleState.noLoadVoltage
        (readAveragedCurrentVoltage zeroRead)| ∧
    ((doTick sampleState zeroRead).batteryJuiceLeft =
      specClamp BATTERY_FULL_CAPACITY
        (sampleState.batteryJuiceLeft -
          ((sampleState.noLoadVoltage - readAveragedCurrentVoltage zeroRead) /
            CURRENT_SENSITIVITY) * (1 / 3600)) ∧
    stateOfChargePercent (doTick sampleState zeroRead) =
      (doTick sampleState zeroRead).batteryJuiceLeft /
        BATTERY_FULL_CAPACITY * 100 ∧
    (BatteryB.tickB ⟨0, 0⟩ zeroRead).remainingCapacity_Ah =
      specClamp BatteryB.BATTERY_CAPACITY_Ah
        ((0:ℚ) -
          (((0:ℚ) - BatteryB.sensorVoltage zeroRead) /
            BatteryB.ACS712_SENSITIVITY) * (1 / 3600)) ∧
    BatteryB.soc (BatteryB.tickB ⟨0, 0⟩ zeroRead) =
      (BatteryB.tickB ⟨0, 0⟩ zeroRead).remainingCapacity_Ah /
        BatteryB.BATTERY_CAPACITY_Ah * 100) :=
  ⟨by
    rw [readAveragedCurrentVoltage_zeroRead]
    norm_num [computeAmps, sampleState, CURRENT_SENSITIVITY,
      CURRENT_NOISE_THRESHOLD],
   tick_formulas sampleState zeroRead ⟨0, 0⟩ zeroRead
     (by
       rw [readAveragedCurrentVoltage_zeroRead]
       norm_num [computeAmps, sampleState, CURRENT_SENSITIVITY,
         CURRENT_NOISE_THRESHOLD])⟩

/-- Claim C3: at startup, an absent or NaN persisted value, a negative
value, or a value above BATTERY_FULL_CAPACITY all make batteryJuiceLeft
start at BATTERY_FULL_CAPACITY; a loaded value inside the range is kept
unchanged. -/
theorem startup_fallback (loaded : Option ℚ) :
    (loaded = none → initBatteryJuice loaded = BATTERY_FULL_CAPACITY) ∧
    (∀ v, loaded = some v → v < 0 →
      initBatteryJuice loaded = BATTERY_FULL_CAPACITY) ∧
    (∀ v, loaded = some v → v > BATTERY_FULL_CAPACITY →
      initBatteryJuice loaded = BATTERY_FULL_CAPACITY) ∧
    (∀ v, loaded = some v → 0 ≤ v → v ≤ BATTERY_FULL_CAPACITY →
      initBatteryJuice loaded = v) := by
  refine ⟨?_, ?_, ?_, ?_⟩
  · rintro rfl; rfl
  · rintro v rfl hv
    unfold initBatteryJuice
    exact if_pos (Or.inl hv)
  · rintro v rfl hv
    unfold initBatteryJuice
    exact if_pos (Or.inr hv)
  · rintro v rfl h0 h1
    unfold initBatteryJuice
    exact if_neg (by push_neg; exact ⟨h0, h1⟩)

/-- Witness for C3 at an in-range loaded value. -/
theorem startup_fallback_witness :
    (0:ℚ) ≤ 1 ∧ (1:ℚ) ≤ BATTERY_FULL_CAPACITY ∧
      initBatteryJuice (some 1) = 1 :=
  ⟨by norm_num, by norm_num [BATTERY_FULL_CAPACITY],
    (startup_fallback (some 1)).2.2.2 1 rfl (by norm_num)
      (by norm_num [BATTERY_FULL_CAPACITY])⟩

/-- Claim C4: when every raw ADC sample taken during a calibration is
the same constant C, the new zero-offset voltage is exactly
(C / 4095) * referenceVoltage, in both calibration routines (500
samples in variant A, 1000 in variant B): the truncating integer
average of a constant is exact. -/
theorem calibration_constant_samples (sA : State) (sB : BatteryB.StateB)
    (C : ℕ) (readA readB : ℕ → ℕ)
    (hA : ∀ i < 500, readA i = C) (hB : ∀ i < 1000, readB i = C) :
    (zeroOutCurrentSensor sA readA).noLoadVoltage =
      ((C : ℚ) / 4095) * ESP32_VOLTAGE ∧
    (BatteryB.recalibrateCurrentSensor sB readB).zeroCurrentVoltage =
      ((C : ℚ) / 4095) * BatteryB.ADC_REFERENCE_VOLTAGE := by
  constructor
  · have hs : (∑ i ∈ Finset.range 500, readA i) = 500 * C := by
      rw [Finset.sum_congr rfl fun i hi => hA i (Finset.mem_range.mp hi)]
      simp [Finset.sum_const]
    show (((∑ i ∈ Finset.range 500, readA i) / 500 : ℕ) : ℚ) / 4095 *
        ESP32_VOLTAGE = _
    rw [hs, Nat.mul_div_cancel_left _ (by norm_num)]
  · have hs : (∑ i ∈ Finset.range 1000, readB i) = 1000 * C := by
      rw [Finset.sum_congr rfl fun i hi => hB i (Finset.mem_range.mp hi)]
      simp [Finset.sum_const]
    show (((∑ i ∈ Finset.range 1000, readB i) / 1000 : ℕ) : ℚ) / 4095 *
        BatteryB.ADC_REFERENCE_VOLTAGE = _
    rw [hs, Nat.mul_div_cancel_left _ (by norm_num)]

/-- Witness for C4 with all samples equal to 100. -/
theorem calibration_constant_samples_witness :
    (∀ i < 500, (fun _ : ℕ => 100) i = 100) ∧
    (∀ i < 1000, (fun _ : ℕ => 100) i = 100) ∧
    (zeroOutCurrentSensor sampleState (fun _ => 100)).noLoadVoltage =
      ((100 : ℚ) / 4095) * ESP32_VOLTAGE ∧
    (BatteryB.recalibrateCurrentSensor ⟨0, 0⟩ (fun _ => 100)).zeroCurrentVoltage =
      ((100 : ℚ) / 4095) * BatteryB.ADC_REFERENCE_VOLTAGE :=
  ⟨fun _ _ => rfl, fun _ _ => rfl,
    calibration_constant_samples sampleState ⟨0, 0⟩ 100 _ _
      (fun _ _ => rfl) (fun _ _ => rfl)⟩

/-- Claim C5: the variant A dead-zone filter forces a current whose
absolute value is strictly below CURRENT_NOISE_THRESHOLD to exactly 0,
leaves a strictly larger one unmodified, and leaves the boundary-equal
case unmodified as well, the comparison being strict less-than. -/
theorem dead_zone_trichotomy (a : ℚ) :
    (|a| < CURRENT_NOISE_THRESHOLD → applyDeadZone a = 0) ∧
    (|a| > CURRENT_NOISE_THRESHOLD → applyDeadZone a = a) ∧
    (|a| = CURRENT_NOISE_THRESHOLD → applyDeadZone a = a) := by
  unfold applyDeadZone
  exact ⟨fun h => if_pos h, fun h => if_neg (by linarith),
    fun h => if_neg (by rw [h]; exact lt_irrefl _)⟩

/-- Witness for C5 at currents 0.01 (inside), 1 (outside) and 0.05
(exactly on the boundary). -/
theorem dead_zone_trichotomy_witness :
    (|(1:ℚ)/100| < CURRENT_NOISE_THRESHOLD ∧ applyDeadZone (1/100) = 0) ∧
    (|(1:ℚ)| > CURRENT_NOISE_THRESHOLD ∧ applyDeadZone 1 = 1) ∧
    (|(5:ℚ)/100| = CURRENT_NOISE_THRESHOLD ∧
      applyDeadZone (5/100) = 5/100) :=
  ⟨⟨by rw [abs_of_pos (by norm_num)]; norm_num [CURRENT_NOISE_THRESHOLD],
    (dead_zone_trichotomy (1/100)).1
      (by rw [abs_of_pos (by norm_num)]; norm_num [CURRENT_NOISE_THRESHOLD])⟩,
   ⟨by norm_num [CURRENT_NOISE_THRESHOLD],
    (dead_zone_trichotomy 1).2.1
      (by norm_num [CURRENT_NOISE_THRESHOLD])⟩,
   ⟨by rw [abs_of_pos (by norm_num)]; norm_num [CURRENT_NOISE_THRESHOLD],
    (dead_zone_trichotomy (5/100)).2.2
      (by rw [abs_of_pos (by norm_num)]; norm_num [CURRENT_NOISE_THRESHOLD])⟩⟩

/-- Claim C6: saving batteryJuiceLeft (EEPROM.put then EEPROM.commit)
and loading it back after a power cycle (EEPROM.begin then EEPROM.get)
returns exactly the saved value, for any value in
[0, BATTERY_FULL_CAPACITY]. -/
theorem persistence_roundtrip (e : EEPROM) (x : ℚ)
    (h0 : 0 ≤ x) (h1 : x ≤ BATTERY_FULL_CAPACITY) :
    (e.saveBatteryLevel x).loadAfterPowerCycle = some x := rfl

/-- Witness for C6 at x = 1 from blank storage. -/
theorem persistence_roundtrip_witness :
    (0:ℚ) ≤ 1 ∧ (1:ℚ) ≤ BATTERY_FULL_CAPACITY ∧
    (EEPROM.saveBatteryLevel { ram := none, flash := none }
        1).loadAfterPowerCycle = some 1 :=
  ⟨by norm_num, by norm_num [BATTERY_FULL_CAPACITY],
    persistence_roundtrip { ram := none, flash := none } 1 (by norm_num)
      (by norm_num [BATTERY_FULL_CAPACITY])⟩

/-- Helper: let-free characterisation of the variant A averaged current
reading. -/
lemma readAveragedCurrentVoltage_eq (read : ℕ → ℕ) :
    readAveragedCurrentVoltage read =
      (((∑ i ∈ Finset.range SAMPLES_TO_AVERAGE, read i) /
          SAMPLES_TO_AVERAGE : ℕ) : ℚ) / 4095 * ESP32_VOLTAGE := rfl

/-- Helper: the sum of the first 200 naturals is 19900. -/
lemma sum_range_200_id : (∑ i ∈ Finset.range 200, i) = 19900 := by
  rw [Finset.sum_range_id]

/-- Counterexample to claim C7: with the 200 raw samples 0, 1, ..., 199
the sum is 19900, the code's truncating integer average is 99 while the
exact arithmetic mean is 99.5, so the converted voltages differ. -/
theorem averaging_not_exact_mean_cex :
    readAveragedCurrentVoltage (fun i => i) ≠ specMeanVoltage (fun i => i) := by
  have h1 : readAveragedCurrentVoltage (fun i => i) =
      (99 : ℚ) / 4095 * ESP32_VOLTAGE := by
    rw [readAveragedCurrentVoltage_eq]
    norm_num [SAMPLES_TO_AVERAGE, sum_range_200_id]
  have h2 : specMeanVoltage (fun i => i) =
      (199 : ℚ) / 2 / 4095 * ESP32_VOLTAGE := by
    unfold specMeanVoltage
    rw [show SAMPLES_TO_AVERAGE = 200 from rfl, ← Nat.cast_sum,
      sum_range_200_id]
    norm_num
  rw [h1, h2]
  norm_num [ESP32_VOLTAGE]

/-- Claim C7 amended: the code averages with a truncating integer
division, so the averaged reading equals the exact arithmetic mean of
the samples converted to volts exactly when SAMPLES_TO_AVERAGE divides
the sum of the samples (in particular whenever all samples are equal);
otherwise the truncation makes it deviate from the true mean. -/
theorem averaging_exact_iff_divisible (read : ℕ → ℕ)
    (h : SAMPLES_TO_AVERAGE ∣
      ∑ i ∈ Finset.range SAMPLES_TO_AVERAGE, read i) :
    readAveragedCurrentVoltage read = specMeanVoltage read := by
  rw [readAveragedCurrentVoltage_eq]
  unfold specMeanVoltage
  rw [← Nat.cast_sum, Nat.cast_div h (by norm_num [SAMPLES_TO_AVERAGE])]

/-- Witness for the amended C7 with all 200 samples equal to 7. -/
theorem averaging_exact_iff_divisible_witness :
    (SAMPLES_TO_AVERAGE ∣
      ∑ i ∈ Finset.range SAMPLES_TO_AVERAGE, (fun _ : ℕ => 7) i) ∧
    readAveragedCurrentVoltage (fun _ => 7) = specMeanVoltage (fun _ => 7) :=
  ⟨by
    have hs : (∑ i ∈ Finset.range SAMPLES_TO_AVERAGE, (fun _ : ℕ => 7) i)
        = 1400 := by
      simp [SAMPLES_TO_AVERAGE, Finset.sum_const]
    rw [hs]
    exact ⟨7, rfl⟩,
   averaging_exact_iff_divisible _ (by
    have hs : (∑ i ∈ Finset.range SAMPLES_TO_AVERAGE, (fun _ : ℕ => 7) i)
        = 1400 := by
      simp [SAMPLES_TO_AVERAGE, Finset.sum_const]
    rw [hs]
    exact ⟨7, rfl⟩)⟩

/-- Claim C8: both calibration routines write only the zero-offset
voltage; the remaining charge (and, in variant A, every other global) is
left unchanged by a recalibration. -/
theorem calibration_preserves_charge (sA : State) (sB : BatteryB.StateB)
    (readA readB : ℕ → ℕ) :
    (zeroOutCurrentSensor sA readA).batteryJuiceLeft =
        sA.batteryJuiceLeft ∧
    (zeroOutCurrentSensor sA readA).eeprom = sA.eeprom ∧
    (BatteryB.recalibrateCurrentSensor sB readB).remainingCapacity_Ah =
        sB.remainingCapacity_Ah :=
  ⟨rfl, rfl, rfl⟩

/-- Claim C9: when the display fails to initialise, setup hangs in
while (true) and the program produces no event at all: no calibration,
no tick and no save ever happen, whatever inputs arrive later. -/
theorem display_failure_halts (e : EEPROM) (calibRead : ℕ → ℕ)
    (startMillis : ℕ) (inputs : List LoopInput) :
    run false e calibRead startMillis inputs = [] := rfl

/-- Claim C10: a tick subtracts the filtered current times a hard-coded
1/3600 hours; the result does not depend on inp.now, i.e. on how much
wall-clock time actually elapsed since the previous tick, as the
right-hand side below contains no occurrence of the clock.  Variant B
spells the same constant as 1000.0 / 3600000.0. -/
theorem fixed_timestep (s : State) (inp : LoopInput)
    (hb : inp.buttonLow = false)
    (ht : 1000 ≤ inp.now - s.timeOfLastCheck) :
    ((loopIter s inp).1).batteryJuiceLeft =
      specClamp BATTERY_FULL_CAPACITY
        (s.batteryJuiceLeft -
          applyDeadZone (computeAmps s.noLoadVoltage
            (readAveragedCurrentVoltage inp.currentRead)) * (1 / 3600)) ∧
    BatteryB.deltaTime_hours = 1 / 3600 := by
  constructor
  · simp only [loopIter, hb, if_pos ht]
    split_ifs with hsave
    · exact doTick_juice s inp.currentRead
    · exact doTick_juice s inp.currentRead
  · norm_num [BatteryB.deltaTime_hours]

/-- Witness for C10 at a tick that fires exactly 1000 ms after the
previous one. -/
theorem fixed_timestep_witness :
    1000 ≤ 1000 - sampleState.timeOfLastCheck ∧
    (((loopIter sampleState
        { buttonLow := false, now := 1000, calibRead := zeroRead,
          currentRead := zeroRead }).1).batteryJuiceLeft =
      specClamp BATTERY_FULL_CAPACITY
        (sampleState.batteryJuiceLeft -
          applyDeadZone (computeAmps sampleState.noLoadVoltage
            (readAveragedCurrentVoltage zeroRead)) * (1 / 3600)) ∧
    BatteryB.deltaTime_hours = 1 / 3600) :=
  ⟨by decide,
   fixed_timestep sampleState
     { buttonLow := false, now := 1000, calibRead := zeroRead,
       currentRead := zeroRead } rfl (by decide)⟩

end BMS
